import Mathlib

/-!
Verification of the sidereal calendar core of the
geocentric-astrology-astronomy playbook.

The repository's computational core (src/script.py and
src/yearly_states.py) is a set of pure functions over real-valued
ecliptic longitudes: ayanamsa correction, wrapping into [0, 360),
discretisation into nakshatra / raasi / tithi indices, label lookup,
a fixed-step trajectory sampler and a coverage statistic.  We embed
those functions over ℚ (Python floats carry exact decimal literals in
every computation the claims touch) and over ℤ for instants (Python
datetime / timedelta arithmetic is exact integer microsecond
arithmetic).
-/

namespace Panchangam

/-- Lahiri ayanamsa approximation, `script.py` line 93 / `yearly_states.py`
line 76: `23.85 + (year - 2000) * 0.01397`. -/
def ayanamsa (year : ℤ) : ℚ := 23.85 + (year - 2000) * 0.01397

/-- Python float `x % 360` on exact values: the unique representative of
`x` modulo 360 in `[0, 360)`.  Used at `script.py` lines 127, 201-202
and `yearly_states.py` lines 83-84, 88. -/
def wrap360 (x : ℚ) : ℚ := x - 360 * ⌊x / 360⌋

/-- `NAK_SIZE = 360 / 27` (`script.py` line 59, `yearly_states.py` line 16). -/
def NAK_SIZE : ℚ := 360 / 27

/-- `TITHI_SIZE = 12` (`script.py` line 60, `yearly_states.py` line 17). -/
def TITHI_SIZE : ℚ := 12

/-- `script.py` lines 120-121: `int(moon_lon // NAK_SIZE)`.  Python `//`
on reals is the floor of the true quotient and `int` of an integral
float is the identity.  This carries the exact-real semantics of
`NAK_SIZE = 360 / 27`; it coincides with the float program everywhere
the running program's inputs land in `[0, 360)`, while the boundary
input 360 (reachable only through float rounding) is treated by
`nakshatra_index_fp` below with the program's actual rounded
constant. -/
def nakshatra_index (moon_lon : ℚ) : ℤ := ⌊moon_lon / NAK_SIZE⌋

/-- The IEEE-754 double the running program actually stores for
`NAK_SIZE = 360 / 27`: `40/3` is not a binary fraction and rounds UP to
the nearest double `7505999378950827 / 2^49` (the candidate below,
`7505999378950826 / 2^49`, is twice as far), so the stored constant is
strictly greater than `40/3` and `27 * NAK_SIZE_fp = 360 + 9 / 2^49`. -/
def NAK_SIZE_fp : ℚ := 7505999378950827 / 2 ^ 49

/-- `int(moon_lon // NAK_SIZE)` as the float program computes it:
floor division by the rounded double constant.  CPython float `//`
returns the exact floor of the quotient at the magnitudes involved
here (`fmod` is exact and the quotient-rounding correction restores
the exact floor), so the embedding is the exact floor of division by
the stored constant. -/
def nakshatra_index_fp (moon_lon : ℚ) : ℤ := ⌊moon_lon / NAK_SIZE_fp⌋

/-- `script.py` lines 123-124: `int(lon // 30)`. -/
def raasi_index (lon : ℚ) : ℤ := ⌊lon / 30⌋

/-- `script.py` lines 126-128: `phase = (moon_lon - sun_lon) % 360;
int(phase // TITHI_SIZE) + 1`. -/
def tithi_index (moon_lon sun_lon : ℚ) : ℤ :=
  ⌊wrap360 (moon_lon - sun_lon) / TITHI_SIZE⌋ + 1

/-- `script.py` lines 92-96: the post-provider part of
`true_ecliptic_longitudes`.  `rawMoon`/`rawSun` are the raw ecliptic
longitudes the skyfield provider returns for the instant; the function
subtracts the ayanamsa of the instant's calendar year and returns the
UNWRAPPED pair. -/
def true_ecliptic_longitudes (rawMoon rawSun : ℚ) (year : ℤ) : ℚ × ℚ :=
  (rawMoon - ayanamsa year, rawSun - ayanamsa year)

/-- `script.py` lines 130-143. -/
def get_moon_phase_name (tithi_i : ℤ) : String :=
  if tithi_i = 30 then "அமாவாசை"
  else if tithi_i = 15 then "பௌர்ணமி"
  else if 1 ≤ tithi_i ∧ tithi_i ≤ 7 then "வளர்பிறை (ஆரம்பம்)"
  else if 8 ≤ tithi_i ∧ tithi_i ≤ 14 then "வளர்பிறை (முடிவு)"
  else if 16 ≤ tithi_i ∧ tithi_i ≤ 22 then "தேய்பிறை (ஆரம்பம்)"
  else "தேய்பிறை (முடிவு)"

/-- The six phase labels `get_moon_phase_name` can produce. -/
def phaseLabels : List String :=
  ["அமாவாசை", "பௌர்ணமி",
   "வளர்பிறை (ஆரம்பம்)", "வளர்பிறை (முடிவு)",
   "தேய்பிறை (ஆரம்பம்)", "தேய்பிறை (முடிவு)"]

/-- `TITHI_ROOTS`, `script.py` lines 41-48 (identical table at
`yearly_states.py` lines 31-38). -/
def TITHI_ROOTS : List String :=
  ["பிரதமை", "துவிதியை", "திருதியை", "சதுர்த்தி", "பஞ்சமி",
   "சஷ்டி", "சப்தமி", "அஷ்டமி", "நவமி", "தசமி",
   "ஏகாதசி", "துவாதசி", "திரயோதசி", "சதுர்த்தசி", "பௌர்ணமி",
   "பிரதமை", "துவிதியை", "திருதியை", "சதுர்த்தி", "பஞ்சமி",
   "சஷ்டி", "சப்தமி", "அஷ்டமி", "நவமி", "தசமி",
   "ஏகாதசி", "துவாதசி", "திரயோதசி", "சதுர்த்தசி", "அமாவாசை"]

/-- `get_full_tithi_name`, `script.py` lines 50-57 / `yearly_states.py`
lines 40-50: `i` is the 0-29 index; the f-string joins with a single
space. -/
def get_full_tithi_name (i : ℕ) : String :=
  let tithi_num := i + 1
  let root := TITHI_ROOTS.getD i ""
  if tithi_num = 15 then "பௌர்ணமி"
  else if tithi_num = 30 then "அமாவாசை"
  else (if tithi_num < 15 then "வளர்பிறை" else "தேய்பிறை") ++ " " ++ root

end Panchangam

open Panchangam

namespace Yearly

/-- `yearly_states.py` line 86: `nak_idx = int(m_lon // NAK_SIZE)`. -/
def nak_idx (m_lon : ℚ) : ℤ := ⌊m_lon / NAK_SIZE⌋

/-- `yearly_states.py` lines 88-89: `phase = (m_lon - s_lon) % 360;
tithi_idx = int(phase // TITHI_SIZE)` — the ZERO-based convention. -/
def tithi_idx (m_lon s_lon : ℚ) : ℤ := ⌊wrap360 (m_lon - s_lon) / TITHI_SIZE⌋

/-- `yearly_states.py` lines 59-77: the post-provider part of
`true_ecliptic_longitudes`, parameterised by the raw-longitude provider
(`raw t` is the skyfield `(moon, sun)` pair at instant `t`) and the
calendar-year function on instants. -/
def true_ecliptic_longitudes (raw : ℤ → ℚ × ℚ) (year : ℤ → ℤ) (t : ℤ) :
    ℚ × ℚ :=
  ((raw t).1 - ayanamsa (year t), (raw t).2 - ayanamsa (year t))

/-- `yearly_states.py` lines 79-91: wrap both longitudes to `[0, 360)`
and discretise. -/
def get_indices (raw : ℤ → ℚ × ℚ) (year : ℤ → ℤ) (t : ℤ) : ℤ × ℤ :=
  let p := true_ecliptic_longitudes raw year t
  let m_lon := wrap360 p.1
  let s_lon := wrap360 p.2
  (nak_idx m_lon, tithi_idx m_lon s_lon)

/-- `yearly_states.py` lines 119-123: `curr = start_date;
while curr < end_date: times.append(curr); curr += step`.  Instants are
integers (Python datetimes are exact microsecond counts); the guard
`0 < step` matches the source's fixed positive step of 4 hours. -/
def sampleTimes (endT step curr : ℤ) : List ℤ :=
  if h : 0 < step ∧ curr < endT then curr :: sampleTimes endT step (curr + step)
  else []
termination_by (endT - curr).toNat
decreasing_by
  obtain ⟨h1, h2⟩ := h
  omega

/-- `yearly_states.py` lines 112-138: the simulation loop maps
`get_indices` over the sampled instants, producing the paired
`nak_history` / `tithi_history`. -/
def simulate (raw : ℤ → ℚ × ℚ) (year : ℤ → ℤ) (start endT step : ℤ) :
    List (ℤ × ℤ) :=
  (sampleTimes endT step start).map (get_indices raw year)

/-- `yearly_states.py` line 202: `set(zip(nak_history, tithi_history))`. -/
def unique_states (nak_history tithi_history : List ℤ) : List (ℤ × ℤ) :=
  (nak_history.zip tithi_history).dedup

/-- `yearly_states.py` line 203:
`len(unique_states) / (27 * 30) * 100`. -/
def coverage (nak_history tithi_history : List ℤ) : ℚ :=
  ((unique_states nak_history tithi_history).length : ℚ) / (27 * 30) * 100

/-- A concrete constant raw-longitude provider, used as a witness input. -/
def constRaw : ℤ → ℚ × ℚ := fun _ => (50, 280)

/-- A concrete constant year function, used as a witness input. -/
def constYear : ℤ → ℤ := fun _ => 2000

end Yearly

namespace Panchangam

/- Helper facts about `wrap360`, shared by several developments below. -/

/-- `⌊x / d⌋` lies in `[0, n-1]` whenever `0 ≤ x < n * d` and `0 < d`. -/
lemma floor_div_bounds (x d : ℚ) (n : ℤ) (hd : 0 < d) (h0 : 0 ≤ x)
    (h1 : x < (n : ℚ) * d) : 0 ≤ ⌊x / d⌋ ∧ ⌊x / d⌋ ≤ n - 1 := by
  constructor
  · exact Int.le_floor.mpr (by positivity)
  · have h2 : ⌊x / d⌋ < n := Int.floor_lt.mpr (by rw [div_lt_iff₀ hd]; exact h1)
    omega

lemma wrap360_nonneg (x : ℚ) : 0 ≤ wrap360 x := by
  have h : (⌊x / 360⌋ : ℚ) ≤ x / 360 := Int.floor_le _
  unfold wrap360
  linarith

lemma wrap360_lt (x : ℚ) : wrap360 x < 360 := by
  have h : x / 360 < ⌊x / 360⌋ + 1 := Int.lt_floor_add_one _
  unfold wrap360
  linarith

lemma wrap360_add_360 (x : ℚ) : wrap360 (x + 360) = wrap360 x := by
  unfold wrap360
  have h : (x + 360) / 360 = x / 360 + 1 := by ring
  rw [h]
  have h2 : ⌊x / 360 + (1 : ℤ)⌋ = ⌊x / 360⌋ + 1 := Int.floor_add_int _ _
  push_cast at h2
  rw [h2]
  push_cast
  ring

end Panchangam

/-- The distinct-state count is bounded by 810 when every nakshatra
index is in `[0, 27)` and every tithi index is in `[0, 30)`. -/
lemma unique_states_length_le (nh th : List ℤ)
    (hn : ∀ x ∈ nh, 0 ≤ x ∧ x < 27) (ht : ∀ x ∈ th, 0 ≤ x ∧ x < 30) :
    (Yearly.unique_states nh th).length ≤ 810 := by
  have hnodup : (Yearly.unique_states nh th).Nodup := List.nodup_dedup _
  have hsub : (Yearly.unique_states nh th).toFinset ⊆
      (Finset.Ico (0 : ℤ) 27) ×ˢ (Finset.Ico (0 : ℤ) 30) := by
    intro p hp
    rw [List.mem_toFinset] at hp
    have hp2 : p ∈ nh.zip th := List.mem_dedup.mp hp
    obtain ⟨a, b⟩ := p
    obtain ⟨ha, hb⟩ := List.of_mem_zip hp2
    rw [Finset.mem_product, Finset.mem_Ico, Finset.mem_Ico]
    exact ⟨⟨(hn a ha).1, (hn a ha).2⟩, ⟨(ht b hb).1, (ht b hb).2⟩⟩
  have hcard : ((Finset.Ico (0 : ℤ) 27) ×ˢ (Finset.Ico (0 : ℤ) 30)).card = 810 := by
    rw [Finset.card_product, Int.card_Ico, Int.card_Ico]
    rfl
  calc (Yearly.unique_states nh th).length
      = (Yearly.unique_states nh th).toFinset.card :=
        (List.toFinset_card_of_nodup hnodup).symm
    _ ≤ ((Finset.Ico (0 : ℤ) 27) ×ˢ (Finset.Ico (0 : ℤ) 30)).card :=
        Finset.card_le_card hsub
    _ = 810 := hcard

/-- C4: `wrap360` (the `x % 360` wrapping used at `script.py` lines
201-202 and `yearly_states.py` lines 83-84) always lands in `[0, 360)`
and is invariant under adding a full turn. -/
theorem wrap360_invariance (x : ℚ) :
    (0 ≤ wrap360 x ∧ wrap360 x < 360) ∧ wrap360 (x + 360) = wrap360 x :=
  ⟨⟨wrap360_nonneg x, wrap360_lt x⟩, wrap360_add_360 x⟩

/-- C1: the fixed scenario at 2000-01-01T00:00:00Z with raw moon
longitude 50.0° and raw sun longitude 280.0°: ayanamsa(2000) = 23.85,
sidereal moon longitude 26.15°, nakshatra index 1, sidereal sun
longitude 256.15°, phase 130.0°, tithi index 11. -/
theorem scenario_2000_values :
    ayanamsa 2000 = 23.85 ∧
    true_ecliptic_longitudes 50 280 2000 = (26.15, 256.15) ∧
    wrap360 26.15 = 26.15 ∧
    nakshatra_index 26.15 = 1 ∧
    wrap360 256.15 = 256.15 ∧
    wrap360 (26.15 - 256.15) = 130 ∧
    tithi_index 26.15 256.15 = 11 := by
  refine ⟨?_, ?_, ?_, ?_, ?_, ?_, ?_⟩ <;>
    norm_num [ayanamsa, true_ecliptic_longitudes, wrap360, nakshatra_index,
      tithi_index, NAK_SIZE, TITHI_SIZE, Int.floor_eq_iff, Prod.ext_iff]

/-- C2 counterexample: the code does NOT treat a wrapped longitude of
360 as 0.  With the program's stored double constant,
`int(360.0 // NAK_SIZE)` evaluates to 26, not 0: there is no guard,
only the upward rounding of `360 / 27`. -/
theorem nakshatra_index_no_guard_cex :
    nakshatra_index_fp 360 = 26 ∧ nakshatra_index_fp 360 ≠ 0 := by
  have h : nakshatra_index_fp 360 = 26 := by
    unfold nakshatra_index_fp NAK_SIZE_fp
    rw [Int.floor_eq_iff]
    norm_num
  exact ⟨h, by rw [h]; decide⟩

/-- C2 amended: `nakshatra_index` has no guard for a wrapped input of
360; instead, because the stored double `NAK_SIZE` rounds above `40/3`,
the computed index at 360 is 26, so for every wrapped input in
`[0, 360]` the returned index lies in `[0, 26]` and the lookup into the
27-entry `NAKSHATRAS` table is never out of bounds. -/
theorem nakshatra_index_fp_in_bounds (lon : ℚ) (h0 : 0 ≤ lon)
    (h1 : lon ≤ 360) :
    (0 ≤ nakshatra_index_fp lon ∧ nakshatra_index_fp lon ≤ 26) ∧
    nakshatra_index_fp 360 = 26 := by
  constructor
  · have h := floor_div_bounds lon NAK_SIZE_fp 27 (by norm_num [NAK_SIZE_fp])
      h0 (by norm_num [NAK_SIZE_fp]; linarith)
    unfold nakshatra_index_fp
    omega
  · unfold nakshatra_index_fp NAK_SIZE_fp
    rw [Int.floor_eq_iff]
    norm_num

/-- Witness for C2 (amended) at the boundary input `lon = 360`. -/
theorem nakshatra_index_fp_in_bounds_witness :
    ((0 ≤ nakshatra_index_fp 360 ∧ nakshatra_index_fp 360 ≤ 26) ∧
      nakshatra_index_fp 360 = 26) :=
  nakshatra_index_fp_in_bounds 360 (by norm_num) (by norm_num)

/-- C3: for every longitude in `[0, 360)` the nakshatra index is in
`[0, 26]` and the raasi index is in `[0, 11]`; for every pair of
longitudes in `[0, 360)` the tithi index is in `[1, 30]`. -/
theorem index_totality (lon moon_lon sun_lon : ℚ)
    (hlon0 : 0 ≤ lon) (hlon1 : lon < 360)
    (hm0 : 0 ≤ moon_lon) (hm1 : moon_lon < 360)
    (hs0 : 0 ≤ sun_lon) (hs1 : sun_lon < 360) :
    (0 ≤ nakshatra_index lon ∧ nakshatra_index lon ≤ 26) ∧
    (0 ≤ raasi_index lon ∧ raasi_index lon ≤ 11) ∧
    (1 ≤ tithi_index moon_lon sun_lon ∧ tithi_index moon_lon sun_lon ≤ 30) := by
  refine ⟨?_, ?_, ?_⟩
  · have h := floor_div_bounds lon NAK_SIZE 27 (by norm_num [NAK_SIZE]) hlon0
      (by norm_num [NAK_SIZE]; linarith)
    unfold nakshatra_index
    omega
  · have h := floor_div_bounds lon 30 12 (by norm_num) hlon0 (by norm_num; linarith)
    unfold raasi_index
    omega
  · have h := floor_div_bounds (wrap360 (moon_lon - sun_lon)) TITHI_SIZE 30
      (by norm_num [TITHI_SIZE]) (wrap360_nonneg _)
      (by norm_num [TITHI_SIZE]; exact wrap360_lt _)
    unfold tithi_index
    omega

/-- Witness for C3 at `lon = 26.15`, `moon_lon = 26.15`,
`sun_lon = 256.15`. -/
theorem index_totality_witness :
    (0 ≤ nakshatra_index 26.15 ∧ nakshatra_index 26.15 ≤ 26) ∧
    (0 ≤ raasi_index 26.15 ∧ raasi_index 26.15 ≤ 11) ∧
    (1 ≤ tithi_index 26.15 256.15 ∧ tithi_index 26.15 256.15 ≤ 30) :=
  index_totality 26.15 26.15 256.15 (by norm_num) (by norm_num) (by norm_num)
    (by norm_num) (by norm_num) (by norm_num)

/-- C5: the tithi display name is the Waxing/Waning prefix (chosen by
whether the 1-based tithi number is below 15) plus the i-th entry of the
15-root cycle repeated twice, except index 14 (tithi 15) which is
exactly the Full Moon name and index 29 (tithi 30) which is exactly the
New Moon name. -/
theorem tithi_display_name_spec :
    get_full_tithi_name 14 = "பௌர்ணமி" ∧
    get_full_tithi_name 29 = "அமாவாசை" ∧
    ∀ i < 30, i ≠ 14 → i ≠ 29 →
      get_full_tithi_name i =
        (if i + 1 < 15 then "வளர்பிறை" else "தேய்பிறை") ++ " " ++
          (TITHI_ROOTS.take 15).getD (i % 15) "" := by
  refine ⟨by decide, by decide, by decide⟩

/-- Witness for C5 at `i = 16`. -/
theorem tithi_display_name_spec_witness :
    get_full_tithi_name 16 =
      (if 16 + 1 < 15 then "வளர்பிறை" else "தேய்பிறை") ++ " " ++
        (TITHI_ROOTS.take 15).getD (16 % 15) "" :=
  tithi_display_name_spec.2.2 16 (by decide) (by decide) (by decide)

/-- C10: `get_moon_phase_name` is total over all integers: it always
returns one of the six phase labels, and every integer that is not 15,
not 30, and lies in neither `[1, 14]` nor `[16, 22]` falls into the
catch-all branch and yields the Waning-Late label. -/
theorem moon_phase_name_total (t : ℤ) :
    get_moon_phase_name t ∈ phaseLabels ∧
    (t ≠ 15 → t ≠ 30 → ¬(1 ≤ t ∧ t ≤ 14) → ¬(16 ≤ t ∧ t ≤ 22) →
      get_moon_phase_name t = "தேய்பிறை (முடிவு)") := by
  unfold get_moon_phase_name phaseLabels
  constructor
  · split_ifs <;> simp
  · intro h15 h30 h14 h22
    split_ifs with h1 h2 h3 h4 h5 <;> first | omega | rfl

/-- Witness for C10 at `t = -5` (outside the documented domain). -/
theorem moon_phase_name_total_witness :
    get_moon_phase_name (-5) ∈ phaseLabels ∧
    get_moon_phase_name (-5) = "தேய்பிறை (முடிவு)" :=
  ⟨(moon_phase_name_total (-5)).1,
   (moon_phase_name_total (-5)).2 (by decide) (by decide) (by decide) (by decide)⟩

/-- C9: the two tithi conventions agree up to the documented offset: for
wrapped longitudes in `[0, 360)`, the 1-based `tithi_index` of
`script.py` equals the 0-based `tithi_idx` of `yearly_states.py`
plus 1. -/
theorem tithi_conventions_agree (moon_lon sun_lon : ℚ)
    (hm0 : 0 ≤ moon_lon) (hm1 : moon_lon < 360)
    (hs0 : 0 ≤ sun_lon) (hs1 : sun_lon < 360) :
    tithi_index moon_lon sun_lon = Yearly.tithi_idx moon_lon sun_lon + 1 :=
  rfl

/-- Witness for C9 at `moon_lon = 26.15`, `sun_lon = 256.15`. -/
theorem tithi_conventions_agree_witness :
    tithi_index 26.15 256.15 = Yearly.tithi_idx 26.15 256.15 + 1 :=
  tithi_conventions_agree 26.15 256.15 (by norm_num) (by norm_num)
    (by norm_num) (by norm_num)

/-- C7: the k-th instant the sampler produces is exactly
`start + k * step`, and the produced instants are exactly those
`start + k * step` strictly before the end instant, in increasing order
of `k` (position `k` of the list holds `start + k * step`). -/
theorem sampleTimes_closed_form (endT step : ℤ) (hstep : 0 < step) (k : ℕ) :
    ∀ start : ℤ,
      (Yearly.sampleTimes endT step start).get? k =
        if start + (k : ℤ) * step < endT then some (start + (k : ℤ) * step)
        else none := by
  induction k with
  | zero =>
    intro start
    rw [Yearly.sampleTimes]
    by_cases hc : start < endT
    · rw [dif_pos ⟨hstep, hc⟩]
      simp [hc]
    · rw [dif_neg (by tauto)]
      simp [hc]
  | succ k ih =>
    intro start
    rw [Yearly.sampleTimes]
    by_cases hc : start < endT
    · rw [dif_pos ⟨hstep, hc⟩, List.get?_cons_succ, ih (start + step)]
      have harith : start + step + (k : ℤ) * step =
          start + (((k + 1 : ℕ) : ℤ)) * step := by push_cast; ring
      rw [harith]
    · rw [dif_neg (by tauto), List.get?_nil]
      have hk : (0 : ℤ) ≤ (k : ℤ) := Int.natCast_nonneg k
      rw [if_neg]
      push_cast
      intro hlt
      nlinarith [mul_nonneg hk (le_of_lt hstep)]

/-- Witness for C7: `start = 0`, `end = 10`, `step = 4`, `k = 2`. -/
theorem sampleTimes_closed_form_witness :
    (Yearly.sampleTimes 10 4 0).get? 2 =
      if (0 : ℤ) + (2 : ℕ) * 4 < 10 then some ((0 : ℤ) + (2 : ℕ) * 4)
      else none :=
  sampleTimes_closed_form 10 4 (by decide) 2 0

/-- C8: the trajectory sampler is deterministic: two runs with identical
start, end and step against the same provider state produce identical
sequences — `simulate` depends on nothing but its explicit inputs. -/
theorem simulate_deterministic
    (raw₁ raw₂ : ℤ → ℚ × ℚ) (year₁ year₂ : ℤ → ℤ)
    (s₁ s₂ e₁ e₂ st₁ st₂ : ℤ)
    (hraw : raw₁ = raw₂) (hyear : year₁ = year₂)
    (hs : s₁ = s₂) (he : e₁ = e₂) (hst : st₁ = st₂) :
    Yearly.simulate raw₁ year₁ s₁ e₁ st₁ =
      Yearly.simulate raw₂ year₂ s₂ e₂ st₂ := by
  subst hraw hyear hs he hst
  rfl

/-- Witness for C8 on the concrete constant provider. -/
theorem simulate_deterministic_witness :
    Yearly.simulate Yearly.constRaw Yearly.constYear 0 10 4 =
      Yearly.simulate Yearly.constRaw Yearly.constYear 0 10 4 :=
  simulate_deterministic Yearly.constRaw Yearly.constRaw
    Yearly.constYear Yearly.constYear 0 0 10 10 4 4 rfl rfl rfl rfl rfl

/-- C6 counterexample: for the one-point trajectory visiting state
`(0, 0)` the code's reported coverage (a percentage,
`1 / 810 * 100`) is NOT the ratio `|distinct| / 810` the claim
states. -/
theorem coverage_not_ratio_cex :
    Yearly.coverage [0] [0] ≠
      ((Yearly.unique_states [0] [0]).length : ℚ) / 810 := by
  have h : Yearly.unique_states [0] [0] = [(0, 0)] := rfl
  unfold Yearly.coverage
  rw [h]
  norm_num

/-- C6 amended: for every trajectory whose states lie in the 27×30
space, the reported coverage is `|distinct| / 810 * 100` — a percentage
in `[0, 100]` — and for the empty trajectory it is exactly 0 with no
division error. -/
theorem coverage_percentage_spec (nak_history tithi_history : List ℤ)
    (hn : ∀ x ∈ nak_history, 0 ≤ x ∧ x < 27)
    (ht : ∀ x ∈ tithi_history, 0 ≤ x ∧ x < 30) :
    Yearly.coverage nak_history tithi_history =
      ((Yearly.unique_states nak_history tithi_history).length : ℚ) / 810 * 100 ∧
    0 ≤ Yearly.coverage nak_history tithi_history ∧
    Yearly.coverage nak_history tithi_history ≤ 100 ∧
    (nak_history = [] → Yearly.coverage nak_history tithi_history = 0) := by
  have hle : (Yearly.unique_states nak_history tithi_history).length ≤ 810 :=
    unique_states_length_le nak_history tithi_history hn ht
  have hleQ : ((Yearly.unique_states nak_history tithi_history).length : ℚ) ≤ 810 := by
    exact_mod_cast hle
  refine ⟨by unfold Yearly.coverage; norm_num, ?_, ?_, ?_⟩
  · unfold Yearly.coverage
    positivity
  · unfold Yearly.coverage
    rw [div_mul_eq_mul_div, div_le_iff₀ (by norm_num)]
    linarith
  · intro hnil
    subst hnil
    simp [Yearly.coverage, Yearly.unique_states]

/-- Witness for C6 (amended) on the empty trajectory. -/
theorem coverage_percentage_spec_witness :
    Yearly.coverage [] [] =
      ((Yearly.unique_states [] []).length : ℚ) / 810 * 100 ∧
    0 ≤ Yearly.coverage [] [] ∧
    Yearly.coverage [] [] ≤ 100 ∧
    (([] : List ℤ) = [] → Yearly.coverage [] [] = 0) :=
  coverage_percentage_spec [] [] (by simp) (by simp)
